import Mathlib

/-!
Verification development for the GetEmpStatus backend.

Shallow embedding of the core request pipeline:
* `ProcessStatus` (rule engine): salary adjustments, tax, averaging,
  status classification (source: services/ProcessStatus.ts).
* `Validator`: key-format and salary-shape predicates (source:
  validators/Validator.ts).
* `RetryHandler.execute`: bounded-attempt retry (source: utils/retry.ts).
* `EmployeeService.getEmployeeStatus`: orchestration with cache lookup,
  retried fetch, domain checks, computation and cache population
  (source: services/EmployeeService.ts).

Monetary amounts are JavaScript numbers in the source; they are embedded
as exact rationals (ℚ).  `month` and `year` are INTEGER database columns
and are embedded as ℤ.  Effects are made explicit: the cache is a lookup
function, the record store is an attempt-indexed fallible function, and
the service result records which cache writes happened and whether the
store was invoked.
-/

/-- SalaryInfo from models/EmpInfo.ts: `{amount, month, year}`. -/
structure SalaryInfo where
  amount : ℚ
  month : ℤ
  year : ℤ
deriving DecidableEq, Repr

/-- Employee status values returned by `determineStatus`. -/
inductive Status where
  | GREEN
  | ORANGE
  | RED
deriving DecidableEq, Repr

namespace ProcessStatus

/-- Embedding of `applyDecemberBonus` from ProcessStatus.ts: records with `month === 12`
get `amount * 1.10`; every other record is passed through unchanged. -/
def applyDecemberBonus (salaries : List SalaryInfo) : List SalaryInfo :=
  salaries.map fun salary =>
    if salary.month = 12 then
      { salary with amount := salary.amount * (11/10) }
    else
      salary

/-- Embedding of `applySummerDeduction` from ProcessStatus.ts: records with
`month >= 6 && month <= 8` get `amount * 0.95`; others pass through. -/
def applySummerDeduction (salaries : List SalaryInfo) : List SalaryInfo :=
  salaries.map fun salary =>
    if 6 ≤ salary.month ∧ salary.month ≤ 8 then
      { salary with amount := salary.amount * (19/20) }
    else
      salary

/-- Embedding of `applySalaryAdjustments` from ProcessStatus.ts: December bonus first,
then summer deduction. -/
def applySalaryAdjustments (salaries : List SalaryInfo) : List SalaryInfo :=
  applySummerDeduction (applyDecemberBonus salaries)

/-- Embedding of `calculateTotalSalary` from ProcessStatus.ts: `reduce((sum, s) => sum + s.amount, 0)`. -/
def calculateTotalSalary (salaries : List SalaryInfo) : ℚ :=
  salaries.foldl (fun sum salary => sum + salary.amount) 0

/-- Embedding of `calculateTax` from ProcessStatus.ts: 7% if the total is strictly
greater than 10000, otherwise 0. -/
def calculateTax (totalSalary : ℚ) : ℚ :=
  if totalSalary > 10000 then totalSalary * (7/100) else 0

/-- Embedding of `calculateAverageSalary` from ProcessStatus.ts: 0 when the count is 0,
otherwise `(total - tax) / count`. -/
def calculateAverageSalary (totalSalary taxAmount : ℚ) (salaryCount : ℕ) : ℚ :=
  if salaryCount = 0 then 0
  else (totalSalary - taxAmount) / (salaryCount : ℚ)

/-- Embedding of `findHighestSalary` from ProcessStatus.ts: 0 on the empty list, else
`Math.max` over the amounts. -/
def findHighestSalary (salaries : List SalaryInfo) : ℚ :=
  match salaries.map (fun s => s.amount) with
  | [] => 0
  | a :: rest => rest.foldl max a

/-- Embedding of `determineStatus` from ProcessStatus.ts: GREEN at `average >= 5000`,
ORANGE at `average >= 3000`, RED otherwise. -/
def determineStatus (averageSalary : ℚ) : Status :=
  if averageSalary ≥ 5000 then Status.GREEN
  else if averageSalary ≥ 3000 then Status.ORANGE
  else Status.RED

end ProcessStatus

namespace Validator

/-- ASCII letter test, the `[A-Z]` class of the key regex with the `i` flag. -/
def isAsciiLetter (c : Char) : Bool :=
  ('A' ≤ c && c ≤ 'Z') || ('a' ≤ c && c ≤ 'z')

/-- ASCII digit test, the `\d` class of the key regex. -/
def isAsciiDigit (c : Char) : Bool :=
  '0' ≤ c && c ≤ '9'

/-- Whitespace removed by `String.prototype.trim` (common cases). -/
def isWhitespaceChar (c : Char) : Bool :=
  c = ' ' || c = '\t' || c = '\n' || c = '\r'

/-- Trim leading and trailing whitespace from a character list. -/
def trimChars (cs : List Char) : List Char :=
  ((cs.dropWhile isWhitespaceChar).reverse.dropWhile isWhitespaceChar).reverse

/-- Full match of the anchored pattern of 3 letters followed by 4 digits,
case-insensitive (regex `[A-Z]{3}[0-9]{4}` anchored at both ends). -/
def matchesKeyFormat : List Char → Bool
  | [l1, l2, l3, d1, d2, d3, d4] =>
    isAsciiLetter l1 && isAsciiLetter l2 && isAsciiLetter l3 &&
    isAsciiDigit d1 && isAsciiDigit d2 && isAsciiDigit d3 && isAsciiDigit d4
  | _ => false

/-- Embedding of `Validator.validateNationalNumber` from Validator.ts: trim, reject the
empty string, then require the 3-letters-4-digits format. -/
def validateNationalNumber (nationalNumber : String) : Bool :=
  let trimmed := trimChars nationalNumber.data
  if trimmed.length = 0 then false
  else matchesKeyFormat trimmed

/-- Embedding of `Validator.hasSufficientData`: `salaryCount >= 3`. -/
def hasSufficientData (salaryCount : ℕ) : Bool :=
  3 ≤ salaryCount

/-- Embedding of `Validator.isUserActive`: `isActive === true`. -/
def isUserActive (isActive : Bool) : Bool :=
  isActive == true

/-- One iteration of the loop in `Validator.validateSalaryData`: first
violation among amount, month, year, reported with its message. -/
def validateSalaryRecord (salary : SalaryInfo) : Option String :=
  if salary.amount < 0 then some "Invalid salary amount"
  else if salary.month < 1 || 12 < salary.month then some "Invalid month value"
  else if salary.year < 2000 then some "Invalid year value"
  else none

/-- Embedding of `Validator.validateSalaryData`: the loop over the records; `none` means
valid, `some e` carries the first violation message. -/
def validateSalaryData : List SalaryInfo → Option String
  | [] => none
  | salary :: rest =>
    match validateSalaryRecord salary with
    | some e => some e
    | none => validateSalaryData rest

end Validator

namespace CacheHandler

/-- Embedding of `CacheHandler.getEmployeeKey` from utils/cache.ts. -/
def getEmployeeKey (nationalNumber : String) : String :=
  "employee:" ++ nationalNumber

end CacheHandler

namespace RetryHandler

/-- The retry loop of `RetryHandler.execute` from utils/retry.ts, from the
current attempt with `remaining` further attempts allowed after it.  The
operation is attempt-indexed (`fn attempt`); delays are irrelevant to the
embedded result and are dropped.  Returns the result together with the
number of invocations of `fn`. -/
def executeFrom {E T : Type} (fn : ℕ → Except E T) (attempt : ℕ) :
    ℕ → Except E T × ℕ
  | 0 =>
    match fn attempt with
    | .ok result => (.ok result, 1)
    | .error e => (.error e, 1)
  | remaining + 1 =>
    match fn attempt with
    | .ok result => (.ok result, 1)
    | .error _ =>
      let rest := executeFrom fn (attempt + 1) remaining
      (rest.1, rest.2 + 1)

/-- Embedding of `RetryHandler.execute` with `maxAttempts`: attempts are numbered from 1;
on the final failed attempt the last error is rethrown unchanged.  Faithful
to the source loop for `maxAttempts ≥ 1` (the degenerate configuration
`maxAttempts = 0` never occurs: every call site uses the default 3). -/
def execute {E T : Type} (fn : ℕ → Except E T) (maxAttempts : ℕ) :
    Except E T × ℕ :=
  executeFrom fn 1 (maxAttempts - 1)

/-- Embedding of `RetryHandler.wrapDatabaseQuery`: `execute` with `maxAttempts = 3`. -/
def wrapDatabaseQuery {E T : Type} (queryFn : ℕ → Except E T) :
    Except E T × ℕ :=
  execute queryFn 3

end RetryHandler

/-- The employee identity fields carried by the `user` row of the record store,
as consumed by EmployeeService (models/EmpInfo.ts constructor arguments). -/
structure UserRec where
  id : String
  username : String
  nationalNumber : String
  email : String
  phone : String
  isActive : Bool
deriving DecidableEq, Repr

/-- One element of the `Salaries` array of `EmpInfo.toResponse`. -/
structure SalaryOut where
  Amount : ℚ
  Month : ℤ
  Year : ℤ
deriving DecidableEq, Repr

/-- The response shape produced by `EmpInfo.toResponse` in models/EmpInfo.ts. -/
structure Response where
  ID : String
  Username : String
  NationalNumber : String
  Email : String
  Phone : String
  IsActive : Bool
  Salaries : List SalaryOut
  TotalSalary : ℚ
  AverageSalary : ℚ
  HighestSalary : ℚ
  TaxAmount : ℚ
  EmpStatus : Status
  LastUpdated : String
deriving DecidableEq, Repr

/-- The error taxonomy of utils/errors.ts as thrown on the request path:
400 bad request (InvalidInput), 404 not found, 406 not acceptable
(Inactive), 422 unprocessable entity (InsufficientData), plus the
data-access failure surfaced when the retry budget is exhausted. -/
inductive ServiceError where
  | badRequest (message : String)
  | notFound (message : String)
  | notAcceptable (message : String)
  | unprocessableEntity (message : String)
  | dataAccessFailure (message : String)
deriving DecidableEq, Repr

/-- The fields computed and set on `EmpInfo` by
`ProcessStatus.processEmployeeStatus`. -/
structure ProcessedInfo where
  adjustedSalaries : List SalaryInfo
  totalSalary : ℚ
  taxAmount : ℚ
  averageSalary : ℚ
  highestSalary : ℚ
  status : Status
deriving DecidableEq, Repr

namespace ProcessStatus

/-- Embedding of `ProcessStatus.processEmployeeStatus` from ProcessStatus.ts: the active
check (406), then the minimum-history check (422), then salary-shape
validation (400), then the computation pipeline.  Thrown errors become
`Except.error`; the mutated `EmpInfo` fields become a `ProcessedInfo`. -/
def processEmployeeStatus (isActive : Bool) (salaries : List SalaryInfo) :
    Except ServiceError ProcessedInfo :=
  if !Validator.isUserActive isActive then
    .error (.notAcceptable "User is not active")
  else if !Validator.hasSufficientData salaries.length then
    .error (.unprocessableEntity "Insufficient salary data (minimum 3 records required)")
  else
    match Validator.validateSalaryData salaries with
    | some err => .error (.badRequest err)
    | none =>
      let adjustedSalaries := applySalaryAdjustments salaries
      let totalSalary := calculateTotalSalary adjustedSalaries
      let taxAmount := calculateTax totalSalary
      let averageSalary := calculateAverageSalary totalSalary taxAmount adjustedSalaries.length
      let highestSalary := findHighestSalary adjustedSalaries
      let status := determineStatus averageSalary
      .ok { adjustedSalaries := adjustedSalaries, totalSalary := totalSalary,
            taxAmount := taxAmount, averageSalary := averageSalary,
            highestSalary := highestSalary, status := status }

end ProcessStatus

namespace EmployeeService

/-- Embedding of `EmpInfo.toResponse` applied to the processed employee: identity fields
from the user row, `Salaries` from the adjusted records, computed totals,
and the `LastUpdated` timestamp (supplied as the impure clock value). -/
def toResponse (user : UserRec) (info : ProcessedInfo) (lastUpdated : String) :
    Response :=
  { ID := user.id
    Username := user.username
    NationalNumber := user.nationalNumber
    Email := user.email
    Phone := user.phone
    IsActive := user.isActive
    Salaries := info.adjustedSalaries.map fun s =>
      { Amount := s.amount, Month := s.month, Year := s.year }
    TotalSalary := info.totalSalary
    AverageSalary := info.averageSalary
    HighestSalary := info.highestSalary
    TaxAmount := info.taxAmount
    EmpStatus := info.status
    LastUpdated := lastUpdated }

/-- Observable outcome of one `getEmployeeStatus` request: the returned
value or thrown error, whether the record store was invoked at all, and
the cache writes performed (key, value, TTL seconds). -/
structure ServiceOutcome where
  result : Except ServiceError Response
  storeInvoked : Bool
  cacheWrites : List (String × Response × ℕ)
deriving Repr

/-- Embedding of `EmployeeService.getEmployeeStatus` from EmployeeService.ts.
here `cache` is the `get` method of the cache layer (already `none` in degraded mode);
`db` is the record-store call `getUserWithSalaries`, indexed by retry
attempt, returning `none` when `!data || !data.user`; `now` is the
timestamp taken at computation time.  Logging calls are dropped. -/
def getEmployeeStatus
    (cache : String → Option Response)
    (db : ℕ → Except String (Option (UserRec × List SalaryInfo)))
    (nationalNumber : String) (now : String) : ServiceOutcome :=
  if !Validator.validateNationalNumber nationalNumber then
    { result := .error (.badRequest "Invalid NationalNumber format. Expected format: NAT1001")
      storeInvoked := false
      cacheWrites := [] }
  else
    let cacheKey := CacheHandler.getEmployeeKey nationalNumber
    match cache cacheKey with
    | some cachedData =>
      { result := .ok cachedData, storeInvoked := false, cacheWrites := [] }
    | none =>
      match RetryHandler.wrapDatabaseQuery db with
      | (.error e, _) =>
        { result := .error (.dataAccessFailure e)
          storeInvoked := true, cacheWrites := [] }
      | (.ok none, _) =>
        { result := .error (.notFound
            ("User with NationalNumber " ++ nationalNumber ++ " not found"))
          storeInvoked := true, cacheWrites := [] }
      | (.ok (some (user, salaries)), _) =>
        match ProcessStatus.processEmployeeStatus user.isActive salaries with
        | .error e =>
          { result := .error e, storeInvoked := true, cacheWrites := [] }
        | .ok info =>
          let response := toResponse user info now
          { result := .ok response
            storeInvoked := true
            cacheWrites := [(cacheKey, response, 3600)] }

end EmployeeService

/-- Per-record effect of the two-stage adjustment pipeline (a derived
description, proved below to coincide with the composition in the source):
December bonus when `month = 12`, summer deduction when `month ∈ [6,8]`,
identity otherwise. -/
def adjustOne (s : SalaryInfo) : SalaryInfo :=
  if s.month = 12 then { s with amount := s.amount * (11/10) }
  else if 6 ≤ s.month ∧ s.month ≤ 8 then { s with amount := s.amount * (19/20) }
  else s

/-- Helper: the bonus-then-deduction composition acts independently on each
record, as `adjustOne`. -/
theorem applySalaryAdjustments_eq_map (salaries : List SalaryInfo) :
    ProcessStatus.applySalaryAdjustments salaries = salaries.map adjustOne := by
  unfold ProcessStatus.applySalaryAdjustments ProcessStatus.applyDecemberBonus
    ProcessStatus.applySummerDeduction
  rw [List.map_map]
  refine List.map_congr_left fun s _ => ?_
  by_cases h12 : s.month = 12
  · have hns : ¬(6 ≤ s.month ∧ s.month ≤ 8) := by omega
    simp [adjustOne, h12, hns]
  · by_cases hsum : 6 ≤ s.month ∧ s.month ≤ 8
    · simp [adjustOne, h12, hsum]
    · simp [adjustOne, h12, hsum]

example : ProcessStatus.determineStatus 3000 = Status.ORANGE := by
  norm_num [ProcessStatus.determineStatus]
example : ProcessStatus.determineStatus 5000 = Status.GREEN := by
  norm_num [ProcessStatus.determineStatus]
example : ProcessStatus.determineStatus (299999/100) = Status.RED := by
  norm_num [ProcessStatus.determineStatus]
example : ProcessStatus.calculateTax 10000 = 0 := by
  norm_num [ProcessStatus.calculateTax]
example : ProcessStatus.calculateTax (1000001/100) = 7000007/10000 := by
  norm_num [ProcessStatus.calculateTax]
example :
    ProcessStatus.applySalaryAdjustments
      [⟨1000, 12, 2023⟩, ⟨1000, 7, 2023⟩, ⟨1000, 3, 2023⟩] =
      [⟨1100, 12, 2023⟩, ⟨950, 7, 2023⟩, ⟨1000, 3, 2023⟩] := by
  norm_num [ProcessStatus.applySalaryAdjustments, ProcessStatus.applyDecemberBonus,
    ProcessStatus.applySummerDeduction]

/-- C1: for every average salary value, `determineStatus` returns GREEN when
the average is at least 5000, ORANGE when it is at least 3000 and below
5000, and RED when it is below 3000; each band is inclusive on its lower
edge, so exactly 3000 yields ORANGE and exactly 5000 yields GREEN. -/
theorem determineStatus_classification_bands (average : ℚ) :
    (5000 ≤ average → ProcessStatus.determineStatus average = Status.GREEN) ∧
    (3000 ≤ average → average < 5000 →
      ProcessStatus.determineStatus average = Status.ORANGE) ∧
    (average < 3000 → ProcessStatus.determineStatus average = Status.RED) ∧
    ProcessStatus.determineStatus 3000 = Status.ORANGE ∧
    ProcessStatus.determineStatus 5000 = Status.GREEN := by
  unfold ProcessStatus.determineStatus
  refine ⟨fun h => ?_, fun h1 h2 => ?_, fun h => ?_, by norm_num, by norm_num⟩
  · rw [if_pos h]
  · rw [if_neg (by linarith), if_pos h1]
  · rw [if_neg (by linarith), if_neg (by linarith)]

/-- Witness for C1 at the boundary probes 2999.99, 3000, 4999.99, 5000. -/
theorem determineStatus_classification_bands_witness :
    ProcessStatus.determineStatus (299999/100) = Status.RED ∧
    ProcessStatus.determineStatus 3000 = Status.ORANGE ∧
    ProcessStatus.determineStatus (499999/100) = Status.ORANGE ∧
    ProcessStatus.determineStatus 5000 = Status.GREEN :=
  ⟨(determineStatus_classification_bands (299999/100)).2.2.1 (by norm_num),
   (determineStatus_classification_bands 3000).2.1 (by norm_num) (by norm_num),
   (determineStatus_classification_bands (499999/100)).2.1 (by norm_num) (by norm_num),
   (determineStatus_classification_bands 5000).1 (by norm_num)⟩

/-- C2: for every total salary value, `calculateTax` returns `total * 0.07`
when the total is strictly greater than 10000 and 0 otherwise; exactly
10000 yields tax 0 and 10000.01 yields tax 700.0007 (exact rational
arithmetic). -/
theorem calculateTax_threshold_spec (total : ℚ) :
    (10000 < total → ProcessStatus.calculateTax total = total * (7/100)) ∧
    (total ≤ 10000 → ProcessStatus.calculateTax total = 0) ∧
    ProcessStatus.calculateTax 10000 = 0 ∧
    ProcessStatus.calculateTax (1000001/100) = 7000007/10000 := by
  unfold ProcessStatus.calculateTax
  refine ⟨fun h => ?_, fun h => ?_, by norm_num, by norm_num⟩
  · rw [if_pos h]
  · rw [if_neg (not_lt.mpr h)]

/-- Witness for C2 at total 10000.01 (taxed) and total 10000 (untaxed). -/
theorem calculateTax_threshold_spec_witness :
    ProcessStatus.calculateTax (1000001/100) = (1000001/100) * (7/100) ∧
    ProcessStatus.calculateTax 10000 = 0 :=
  ⟨(calculateTax_threshold_spec (1000001/100)).1 (by norm_num),
   (calculateTax_threshold_spec 10000).2.1 (by norm_num)⟩

/-- C4: for every total, tax and record count, `calculateAverageSalary`
returns `(total - tax) / count`, with average 0 when the count is 0; and
in `processEmployeeStatus` the count used is the adjusted-record count,
which equals the raw salary-record count. -/
theorem calculateAverageSalary_net_over_count (total tax : ℚ) (count : ℕ)
    (isActive : Bool) (salaries : List SalaryInfo) :
    (count = 0 → ProcessStatus.calculateAverageSalary total tax count = 0) ∧
    (count ≠ 0 → ProcessStatus.calculateAverageSalary total tax count =
      (total - tax) / (count : ℚ)) ∧
    (∀ info, ProcessStatus.processEmployeeStatus isActive salaries = Except.ok info →
      info.averageSalary =
        ProcessStatus.calculateAverageSalary info.totalSalary info.taxAmount
          salaries.length) := by
  refine ⟨fun h => ?_, fun h => ?_, fun info hinfo => ?_⟩
  · unfold ProcessStatus.calculateAverageSalary
    rw [if_pos h]
  · unfold ProcessStatus.calculateAverageSalary
    rw [if_neg h]
  · unfold ProcessStatus.processEmployeeStatus at hinfo
    split at hinfo
    · exact absurd hinfo (by simp)
    · split at hinfo
      · exact absurd hinfo (by simp)
      · split at hinfo
        · exact absurd hinfo (by simp)
        · rw [Except.ok.injEq] at hinfo
          subst hinfo
          simp only [applySalaryAdjustments_eq_map, List.length_map]

/-- Witness for C4: a zero count, a nonzero count, and a processed employee
with three records. -/
theorem calculateAverageSalary_net_over_count_witness :
    ProcessStatus.calculateAverageSalary 15000 1050 0 = 0 ∧
    ProcessStatus.calculateAverageSalary 15000 1050 3 =
      (15000 - 1050) / ((3 : ℕ) : ℚ) ∧
    ∀ info,
      ProcessStatus.processEmployeeStatus true
        [⟨5000, 1, 2023⟩, ⟨5000, 2, 2023⟩, ⟨5000, 3, 2023⟩] = Except.ok info →
      info.averageSalary =
        ProcessStatus.calculateAverageSalary info.totalSalary info.taxAmount
          ([⟨5000, 1, 2023⟩, ⟨5000, 2, 2023⟩, ⟨5000, 3, 2023⟩] : List SalaryInfo).length :=
  ⟨(calculateAverageSalary_net_over_count 15000 1050 0 true []).1 rfl,
   (calculateAverageSalary_net_over_count 15000 1050 3 true []).2.1 (by norm_num),
   (calculateAverageSalary_net_over_count 15000 1050 3 true
     [⟨5000, 1, 2023⟩, ⟨5000, 2, 2023⟩, ⟨5000, 3, 2023⟩]).2.2⟩

/-- C3: for every salary list, `applySalaryAdjustments` (December bonus
first, summer deduction second) multiplies the amount of a `month = 12`
record by exactly 11/10 and by nothing else, multiplies the amount of a
month 6, 7 or 8 record by exactly 19/20 and by nothing else, leaves all
other amounts unchanged, and no record satisfies both conditions. -/
theorem applySalaryAdjustments_per_record_multipliers
    (salaries : List SalaryInfo) (i : ℕ) (s a : SalaryInfo)
    (hs : salaries[i]? = some s)
    (ha : (ProcessStatus.applySalaryAdjustments salaries)[i]? = some a) :
    (s.month = 12 → a.amount = s.amount * (11/10)) ∧
    ((s.month = 6 ∨ s.month = 7 ∨ s.month = 8) → a.amount = s.amount * (19/20)) ∧
    (s.month ≠ 12 → ¬(s.month = 6 ∨ s.month = 7 ∨ s.month = 8) →
      a.amount = s.amount) ∧
    ¬(s.month = 12 ∧ (s.month = 6 ∨ s.month = 7 ∨ s.month = 8)) := by
  rw [applySalaryAdjustments_eq_map, List.getElem?_map, hs] at ha
  have ha' : adjustOne s = a := by simpa using ha
  subst ha'
  refine ⟨fun h12 => ?_, fun hsum => ?_, fun h12 hsum => ?_, fun ⟨h12, hsum⟩ => by omega⟩
  · simp [adjustOne, h12]
  · have h12 : ¬ s.month = 12 := by omega
    have hrange : 6 ≤ s.month ∧ s.month ≤ 8 := by omega
    simp [adjustOne, h12, hrange]
  · have hrange : ¬(6 ≤ s.month ∧ s.month ≤ 8) := by omega
    simp [adjustOne, h12, hrange]

/-- Witness for C3: a December record, a July record and a March record,
at their respective indices. -/
theorem applySalaryAdjustments_per_record_multipliers_witness :
    ((⟨1000, 12, 2023⟩ : SalaryInfo).month = 12 →
      (⟨1100, 12, 2023⟩ : SalaryInfo).amount =
        (⟨1000, 12, 2023⟩ : SalaryInfo).amount * (11/10)) ∧
    (((⟨1000, 12, 2023⟩ : SalaryInfo).month = 6 ∨
      (⟨1000, 12, 2023⟩ : SalaryInfo).month = 7 ∨
      (⟨1000, 12, 2023⟩ : SalaryInfo).month = 8) →
      (⟨1100, 12, 2023⟩ : SalaryInfo).amount =
        (⟨1000, 12, 2023⟩ : SalaryInfo).amount * (19/20)) ∧
    ((⟨1000, 12, 2023⟩ : SalaryInfo).month ≠ 12 →
      ¬((⟨1000, 12, 2023⟩ : SalaryInfo).month = 6 ∨
        (⟨1000, 12, 2023⟩ : SalaryInfo).month = 7 ∨
        (⟨1000, 12, 2023⟩ : SalaryInfo).month = 8) →
      (⟨1100, 12, 2023⟩ : SalaryInfo).amount =
        (⟨1000, 12, 2023⟩ : SalaryInfo).amount) ∧
    ¬((⟨1000, 12, 2023⟩ : SalaryInfo).month = 12 ∧
      ((⟨1000, 12, 2023⟩ : SalaryInfo).month = 6 ∨
       (⟨1000, 12, 2023⟩ : SalaryInfo).month = 7 ∨
       (⟨1000, 12, 2023⟩ : SalaryInfo).month = 8)) :=
  applySalaryAdjustments_per_record_multipliers
    [⟨1000, 12, 2023⟩, ⟨1000, 7, 2023⟩, ⟨1000, 3, 2023⟩] 0
    ⟨1000, 12, 2023⟩ ⟨1100, 12, 2023⟩ rfl
    (by norm_num [ProcessStatus.applySalaryAdjustments,
      ProcessStatus.applyDecemberBonus, ProcessStatus.applySummerDeduction])

/-- C5: for every input salary list, `applySalaryAdjustments` produces a
list of the same length in the same order (position i of the output is
derived from position i of the input); the embedding is a pure `List.map`,
so the input list itself is left unchanged and each output record is a
newly constructed value rather than an in-place mutation. -/
theorem applySalaryAdjustments_length_order_preserved
    (salaries : List SalaryInfo) :
    (ProcessStatus.applySalaryAdjustments salaries).length = salaries.length ∧
    (∀ (i : ℕ) (s : SalaryInfo), salaries[i]? = some s →
      (ProcessStatus.applySalaryAdjustments salaries)[i]? = some (adjustOne s)) := by
  rw [applySalaryAdjustments_eq_map]
  refine ⟨List.length_map salaries adjustOne, fun i s hs => ?_⟩
  rw [List.getElem?_map, hs]
  rfl

/-- Witness for C5 on a three-record list. -/
theorem applySalaryAdjustments_length_order_preserved_witness :
    (ProcessStatus.applySalaryAdjustments
      [⟨1000, 12, 2023⟩, ⟨1000, 7, 2023⟩, ⟨1000, 3, 2023⟩]).length =
      ([⟨1000, 12, 2023⟩, ⟨1000, 7, 2023⟩, ⟨1000, 3, 2023⟩] : List SalaryInfo).length ∧
    (ProcessStatus.applySalaryAdjustments
      [⟨1000, 12, 2023⟩, ⟨1000, 7, 2023⟩, ⟨1000, 3, 2023⟩])[1]? =
      some (adjustOne ⟨1000, 7, 2023⟩) :=
  ⟨(applySalaryAdjustments_length_order_preserved
      [⟨1000, 12, 2023⟩, ⟨1000, 7, 2023⟩, ⟨1000, 3, 2023⟩]).1,
   (applySalaryAdjustments_length_order_preserved
      [⟨1000, 12, 2023⟩, ⟨1000, 7, 2023⟩, ⟨1000, 3, 2023⟩]).2 1 ⟨1000, 7, 2023⟩ rfl⟩

/-- C10: the adjustment pipeline preserves the month and year fields of
every record, and a record whose month is outside both adjustment windows
(not 6, 7, 8 and not 12) keeps exactly its original amount. -/
theorem applySalaryAdjustments_frame_months_years
    (salaries : List SalaryInfo) (i : ℕ) (s a : SalaryInfo)
    (hs : salaries[i]? = some s)
    (ha : (ProcessStatus.applySalaryAdjustments salaries)[i]? = some a) :
    a.month = s.month ∧ a.year = s.year ∧
    (s.month ≠ 6 → s.month ≠ 7 → s.month ≠ 8 → s.month ≠ 12 →
      a.amount = s.amount) := by
  rw [applySalaryAdjustments_eq_map, List.getElem?_map, hs] at ha
  have ha' : adjustOne s = a := by simpa using ha
  subst ha'
  refine ⟨?_, ?_, fun h6 h7 h8 h12 => ?_⟩
  · unfold adjustOne
    split <;> try split
    all_goals rfl
  · unfold adjustOne
    split <;> try split
    all_goals rfl
  · have hrange : ¬(6 ≤ s.month ∧ s.month ≤ 8) := by omega
    simp [adjustOne, h12, hrange]

/-- Witness for C10 on a March record, which crosses the pipeline intact. -/
theorem applySalaryAdjustments_frame_months_years_witness :
    (⟨1000, 3, 2023⟩ : SalaryInfo).month = (⟨1000, 3, 2023⟩ : SalaryInfo).month ∧
    (⟨1000, 3, 2023⟩ : SalaryInfo).year = (⟨1000, 3, 2023⟩ : SalaryInfo).year ∧
    ((⟨1000, 3, 2023⟩ : SalaryInfo).month ≠ 6 →
     (⟨1000, 3, 2023⟩ : SalaryInfo).month ≠ 7 →
     (⟨1000, 3, 2023⟩ : SalaryInfo).month ≠ 8 →
     (⟨1000, 3, 2023⟩ : SalaryInfo).month ≠ 12 →
      (⟨1000, 3, 2023⟩ : SalaryInfo).amount = (⟨1000, 3, 2023⟩ : SalaryInfo).amount) :=
  applySalaryAdjustments_frame_months_years
    [⟨1000, 12, 2023⟩, ⟨1000, 7, 2023⟩, ⟨1000, 3, 2023⟩] 2
    ⟨1000, 3, 2023⟩ ⟨1000, 3, 2023⟩ rfl
    (by norm_num [ProcessStatus.applySalaryAdjustments,
      ProcessStatus.applyDecemberBonus, ProcessStatus.applySummerDeduction])

/-- Helper: an attempt that succeeds stops the retry loop after exactly one
invocation, whatever the remaining budget. -/
theorem executeFrom_ok {E T : Type} (fn : ℕ → Except E T) (attempt r : ℕ)
    (t : T) (h : fn attempt = Except.ok t) :
    RetryHandler.executeFrom fn attempt r = (Except.ok t, 1) := by
  cases r <;> simp [RetryHandler.executeFrom, h]

/-- Helper: when every attempt in the window fails, the retry loop spends
the whole budget and returns the error of the last attempt. -/
theorem executeFrom_allFail {E T : Type} (fn : ℕ → Except E T) (errs : ℕ → E) :
    ∀ (r a : ℕ), (∀ k, a ≤ k → k ≤ a + r → fn k = Except.error (errs k)) →
      RetryHandler.executeFrom fn a r = (Except.error (errs (a + r)), r + 1)
  | 0, a, h => by
    simp [RetryHandler.executeFrom, h a le_rfl (by omega)]
  | r+1, a, h => by
    have hrec := executeFrom_allFail fn errs r (a+1)
      (fun k hk1 hk2 => h k (by omega) (by omega))
    have hidx : a + 1 + r = a + (r + 1) := by omega
    rw [hidx] at hrec
    simp [RetryHandler.executeFrom, h a le_rfl (by omega), hrec]

/-- C8: a fallible operation run through `RetryHandler.execute` with
`maxAttempts = N ≥ 1` that fails on every attempt is invoked exactly N
times and the failure of the final attempt is propagated unchanged; an
operation that fails once and then succeeds is invoked exactly 2 times and
its successful result is returned. -/
theorem retryHandler_execute_attempt_counts {E T : Type}
    (fn : ℕ → Except E T) (N : ℕ) (errs : ℕ → E) :
    (1 ≤ N → (∀ k, 1 ≤ k → k ≤ N → fn k = Except.error (errs k)) →
      RetryHandler.execute fn N = (Except.error (errs N), N)) ∧
    (∀ (e : E) (t : T), 2 ≤ N → fn 1 = Except.error e → fn 2 = Except.ok t →
      RetryHandler.execute fn N = (Except.ok t, 2)) := by
  constructor
  · intro hN hfail
    unfold RetryHandler.execute
    have hall := executeFrom_allFail fn errs (N-1) 1
      (fun k hk1 hk2 => hfail k hk1 (by omega))
    have h1N : 1 + (N - 1) = N := by omega
    have h2N : (N - 1) + 1 = N := by omega
    rw [hall, h1N, h2N]
  · intro e t hN h1 h2
    unfold RetryHandler.execute
    obtain ⟨r, hr⟩ : ∃ r, N - 1 = r + 1 := ⟨N - 2, by omega⟩
    rw [hr]
    simp [RetryHandler.executeFrom, h1, executeFrom_ok fn 2 r t h2]

/-- Operation used by the C8 witness: fails on attempt 1, succeeds from
attempt 2 on. -/
def probeFn : ℕ → Except ℕ ℕ := fun k =>
  if k = 1 then Except.error 11 else Except.ok 42

/-- Witness for C8: an always-failing operation with `maxAttempts = 3` runs
3 times and surfaces the last error; `probeFn` runs twice and succeeds. -/
theorem retryHandler_execute_attempt_counts_witness :
    RetryHandler.execute (fun _ => (Except.error 7 : Except ℕ ℕ)) 3 =
      (Except.error 7, 3) ∧
    RetryHandler.execute probeFn 3 = (Except.ok 42, 2) :=
  ⟨(retryHandler_execute_attempt_counts (fun _ => Except.error 7) 3 (fun _ => 7)).1
      (by norm_num) (fun k hk1 hk2 => rfl),
   (retryHandler_execute_attempt_counts probeFn 3 (fun _ => 7)).2 11 42
      (by norm_num) rfl rfl⟩

/-- C6: for every request whose key passes format validation, if the cache
holds a value under `employee:nationalKey` then `getEmployeeStatus`
returns exactly that value, the record store is never invoked, and no
cache write happens — the outcome is the same for every `db`. -/
theorem getEmployeeStatus_cache_hit_short_circuit
    (cache : String → Option Response)
    (db : ℕ → Except String (Option (UserRec × List SalaryInfo)))
    (nationalNumber now : String) (v : Response)
    (hk : Validator.validateNationalNumber nationalNumber = true)
    (hc : cache (CacheHandler.getEmployeeKey nationalNumber) = some v) :
    EmployeeService.getEmployeeStatus cache db nationalNumber now =
      { result := Except.ok v, storeInvoked := false, cacheWrites := [] } := by
  unfold EmployeeService.getEmployeeStatus
  rw [hk]
  simp [hc]

/-- Cached response used by the cache-hit witness. -/
def respW : Response :=
  { ID := "u1", Username := "alice", NationalNumber := "NAT1001",
    Email := "a@b.c", Phone := "123", IsActive := true, Salaries := [],
    TotalSalary := 0, AverageSalary := 0, HighestSalary := 0, TaxAmount := 0,
    EmpStatus := Status.GREEN, LastUpdated := "t0" }

/-- Witness for C6: NAT1001 is cached; the store, which would fail every
attempt, is never reached. -/
theorem getEmployeeStatus_cache_hit_short_circuit_witness :
    EmployeeService.getEmployeeStatus
      (fun k => if k = "employee:NAT1001" then some respW else none)
      (fun _ => Except.error "db down") "NAT1001" "t1" =
      { result := Except.ok respW, storeInvoked := false, cacheWrites := [] } :=
  getEmployeeStatus_cache_hit_short_circuit
    (fun k => if k = "employee:NAT1001" then some respW else none)
    (fun _ => Except.error "db down") "NAT1001" "t1" respW (by decide) rfl

/-- C7: the cache entry is written only after a fully successful
computation: a request that ends in any error leaves the cache writes
empty, and a request that computes successfully (cache miss) performs
exactly one write, of the complete response under the employee key with a
3600 second TTL. -/
theorem getEmployeeStatus_cache_write_atomicity
    (cache : String → Option Response)
    (db : ℕ → Except String (Option (UserRec × List SalaryInfo)))
    (nationalNumber now : String) :
    (∀ e, (EmployeeService.getEmployeeStatus cache db nationalNumber now).result =
        Except.error e →
      (EmployeeService.getEmployeeStatus cache db nationalNumber now).cacheWrites = []) ∧
    (∀ r, cache (CacheHandler.getEmployeeKey nationalNumber) = none →
      (EmployeeService.getEmployeeStatus cache db nationalNumber now).result =
        Except.ok r →
      (EmployeeService.getEmployeeStatus cache db nationalNumber now).cacheWrites =
        [(CacheHandler.getEmployeeKey nationalNumber, r, 3600)]) := by
  cases hv : Validator.validateNationalNumber nationalNumber
  · constructor
    · intro e _
      simp [EmployeeService.getEmployeeStatus, hv]
    · intro r _ hok
      simp [EmployeeService.getEmployeeStatus, hv] at hok
  · cases hc : cache (CacheHandler.getEmployeeKey nationalNumber) with
    | some v =>
      constructor
      · intro e he
        simp [EmployeeService.getEmployeeStatus, hv, hc] at he
      · intro r hmiss _
        exact Option.noConfusion hmiss
    | none =>
      rcases hdb : RetryHandler.wrapDatabaseQuery db with ⟨res, cnt⟩
      match res with
      | .error err =>
        constructor
        · intro e _
          simp [EmployeeService.getEmployeeStatus, hv, hc, hdb]
        · intro r _ hok
          simp [EmployeeService.getEmployeeStatus, hv, hc, hdb] at hok
      | .ok none =>
        constructor
        · intro e _
          simp [EmployeeService.getEmployeeStatus, hv, hc, hdb]
        · intro r _ hok
          simp [EmployeeService.getEmployeeStatus, hv, hc, hdb] at hok
      | .ok (some (user, salaries)) =>
        cases hp : ProcessStatus.processEmployeeStatus user.isActive salaries with
        | error e2 =>
          constructor
          · intro e _
            simp [EmployeeService.getEmployeeStatus, hv, hc, hdb, hp]
          · intro r _ hok
            simp [EmployeeService.getEmployeeStatus, hv, hc, hdb, hp] at hok
        | ok info =>
          constructor
          · intro e he
            simp [EmployeeService.getEmployeeStatus, hv, hc, hdb, hp] at he
          · intro r _ hok
            simp only [EmployeeService.getEmployeeStatus, hv, Bool.not_true,
              Bool.false_eq_true, if_false, hc, hdb, hp] at hok ⊢
            rw [Except.ok.injEq] at hok
            rw [hok]

/-- Active user row used by the orchestrator witnesses. -/
def userW : UserRec :=
  { id := "u1", username := "alice", nationalNumber := "NAT1001",
    email := "a@b.c", phone := "123", isActive := true }

/-- Three valid salary records averaging 4650 after tax. -/
def salsW : List SalaryInfo := [⟨5000, 1, 2023⟩, ⟨5000, 2, 2023⟩, ⟨5000, 3, 2023⟩]

/-- Record store that succeeds on every attempt with `userW` and `salsW`. -/
def dbOkW : ℕ → Except String (Option (UserRec × List SalaryInfo)) :=
  fun _ => Except.ok (some (userW, salsW))

/-- The response computed for `userW` with `salsW`: total 15000, tax 1050,
average 4650, highest 5000, status ORANGE. -/
def respSuccessW : Response :=
  { ID := "u1", Username := "alice", NationalNumber := "NAT1001",
    Email := "a@b.c", Phone := "123", IsActive := true,
    Salaries := [⟨5000, 1, 2023⟩, ⟨5000, 2, 2023⟩, ⟨5000, 3, 2023⟩],
    TotalSalary := 15000, AverageSalary := 4650, HighestSalary := 5000,
    TaxAmount := 1050, EmpStatus := Status.ORANGE, LastUpdated := "t1" }

/-- Witness for C7: a request rejected at key validation writes nothing;
the successful NAT1001 request writes exactly its response with TTL 3600. -/
theorem getEmployeeStatus_cache_write_atomicity_witness :
    (EmployeeService.getEmployeeStatus (fun _ => none)
      (fun _ => Except.error "down") "BADKEY" "t1").cacheWrites = [] ∧
    (EmployeeService.getEmployeeStatus (fun _ => none) dbOkW "NAT1001" "t1").cacheWrites =
      [(CacheHandler.getEmployeeKey "NAT1001", respSuccessW, 3600)] :=
  ⟨(getEmployeeStatus_cache_write_atomicity (fun _ => none)
      (fun _ => Except.error "down") "BADKEY" "t1").1
      (ServiceError.badRequest "Invalid NationalNumber format. Expected format: NAT1001")
      rfl,
   (getEmployeeStatus_cache_write_atomicity (fun _ => none) dbOkW "NAT1001" "t1").2
      respSuccessW rfl
      (by
        have hv : Validator.validateNationalNumber "NAT1001" = true := by decide
        have hdb : RetryHandler.wrapDatabaseQuery dbOkW =
            (Except.ok (some (userW, salsW)), 1) :=
          executeFrom_ok dbOkW 1 2 (some (userW, salsW)) rfl
        norm_num [EmployeeService.getEmployeeStatus, hv, hdb,
          ProcessStatus.processEmployeeStatus, Validator.isUserActive,
          Validator.hasSufficientData, Validator.validateSalaryData,
          Validator.validateSalaryRecord, salsW, userW,
          ProcessStatus.applySalaryAdjustments, ProcessStatus.applyDecemberBonus,
          ProcessStatus.applySummerDeduction, ProcessStatus.calculateTotalSalary,
          ProcessStatus.calculateTax, ProcessStatus.calculateAverageSalary,
          ProcessStatus.findHighestSalary, ProcessStatus.determineStatus,
          EmployeeService.toResponse, respSuccessW, CacheHandler.getEmployeeKey])⟩

/-- C9: on a cache miss with a valid key, an absent record yields NotFound;
an existing record with the active flag false yields the Inactive failure
(regardless of its salary history, showing the activity check precedes the
history check); an active record with fewer than 3 salary records yields
InsufficientData; in each case the store was invoked (the checks follow
the fetch) and no cache write or computed response is produced (the checks
precede any monetary computation); Inactive is distinct from NotFound. -/
theorem getEmployeeStatus_domain_check_ordering
    (cache : String → Option Response)
    (db : ℕ → Except String (Option (UserRec × List SalaryInfo)))
    (nationalNumber now : String)
    (hk : Validator.validateNationalNumber nationalNumber = true)
    (hmiss : cache (CacheHandler.getEmployeeKey nationalNumber) = none) :
    ((RetryHandler.wrapDatabaseQuery db).1 = Except.ok none →
      EmployeeService.getEmployeeStatus cache db nationalNumber now =
        { result := Except.error (ServiceError.notFound
            ("User with NationalNumber " ++ nationalNumber ++ " not found")),
          storeInvoked := true, cacheWrites := [] }) ∧
    (∀ (user : UserRec) (salaries : List SalaryInfo),
      (RetryHandler.wrapDatabaseQuery db).1 = Except.ok (some (user, salaries)) →
      user.isActive = false →
      EmployeeService.getEmployeeStatus cache db nationalNumber now =
        { result := Except.error (ServiceError.notAcceptable "User is not active"),
          storeInvoked := true, cacheWrites := [] }) ∧
    (∀ (user : UserRec) (salaries : List SalaryInfo),
      (RetryHandler.wrapDatabaseQuery db).1 = Except.ok (some (user, salaries)) →
      user.isActive = true → salaries.length < 3 →
      EmployeeService.getEmployeeStatus cache db nationalNumber now =
        { result := Except.error (ServiceError.unprocessableEntity
            "Insufficient salary data (minimum 3 records required)"),
          storeInvoked := true, cacheWrites := [] }) ∧
    (ServiceError.notAcceptable "User is not active" ≠
      ServiceError.notFound
        ("User with NationalNumber " ++ nationalNumber ++ " not found")) := by
  rcases hdb : RetryHandler.wrapDatabaseQuery db with ⟨res, cnt⟩
  refine ⟨fun habsent => ?_, fun user salaries hfound hinactive => ?_,
    fun user salaries hfound hactive hshort => ?_,
    fun h => ServiceError.noConfusion h⟩
  · simp only at habsent
    subst habsent
    simp [EmployeeService.getEmployeeStatus, hk, hmiss, hdb]
  · simp only at hfound
    subst hfound
    simp [EmployeeService.getEmployeeStatus, hk, hmiss, hdb,
      ProcessStatus.processEmployeeStatus, Validator.isUserActive, hinactive]
  · simp only at hfound
    subst hfound
    have hsd : Validator.hasSufficientData salaries.length = false := by
      simp [Validator.hasSufficientData]
      omega
    simp [EmployeeService.getEmployeeStatus, hk, hmiss, hdb,
      ProcessStatus.processEmployeeStatus, Validator.isUserActive, hactive, hsd]

/-- Inactive user row used by the C9 witness. -/
def userInactiveW : UserRec :=
  { id := "u3", username := "carol", nationalNumber := "NAT1003",
    email := "c@b.c", phone := "333", isActive := false }

/-- Two-record salary history used by the C9 witness. -/
def salsShortW : List SalaryInfo := [⟨5000, 1, 2023⟩, ⟨5000, 2, 2023⟩]

/-- Witness for C9: an absent record, an inactive user and a two-record
history, each against an empty cache. -/
theorem getEmployeeStatus_domain_check_ordering_witness :
    (EmployeeService.getEmployeeStatus (fun _ => none)
      (fun _ => Except.ok none) "NAT9999" "t1" =
      { result := Except.error (ServiceError.notFound
          ("User with NationalNumber " ++ "NAT9999" ++ " not found")),
        storeInvoked := true, cacheWrites := [] }) ∧
    (EmployeeService.getEmployeeStatus (fun _ => none)
      (fun _ => Except.ok (some (userInactiveW, salsW))) "NAT1003" "t1" =
      { result := Except.error (ServiceError.notAcceptable "User is not active"),
        storeInvoked := true, cacheWrites := [] }) ∧
    (EmployeeService.getEmployeeStatus (fun _ => none)
      (fun _ => Except.ok (some (userW, salsShortW))) "NAT1005" "t1" =
      { result := Except.error (ServiceError.unprocessableEntity
          "Insufficient salary data (minimum 3 records required)"),
        storeInvoked := true, cacheWrites := [] }) :=
  ⟨(getEmployeeStatus_domain_check_ordering (fun _ => none)
      (fun _ => Except.ok none) "NAT9999" "t1" (by decide) rfl).1 rfl,
   (getEmployeeStatus_domain_check_ordering (fun _ => none)
      (fun _ => Except.ok (some (userInactiveW, salsW))) "NAT1003" "t1"
      (by decide) rfl).2.1 userInactiveW salsW rfl rfl,
   (getEmployeeStatus_domain_check_ordering (fun _ => none)
      (fun _ => Except.ok (some (userW, salsShortW))) "NAT1005" "t1"
      (by decide) rfl).2.2.1 userW salsShortW rfl rfl (by norm_num [salsShortW])⟩
